import Mathlib

/-!
# Verification of the stopwatch example (`stopwatch-with-ssd1331-and-interrupts.rs`)

Shallow embedding of the interrupt-driven stopwatch from the `stm32f4xx-hal`
examples.  The shared mutable cells (`ELAPSED_MS`, `STATE`), the NVIC mask bit
for the TIM2 interrupt source, the EXTI0 / TIM2 pending flags and the
"resource installed" status of the two `Mutex<RefCell<Option<...>>>` slots are
collected into one record `Sys`.  Each interrupt handler runs its whole body
inside a single `cortex_m::interrupt::free` critical section on a single-core
device, so a handler invocation is modelled as one atomic function
`Sys → Sys`.  The counter is a `u32`; its arithmetic is `Nat` arithmetic
modulo `2 ^ 32` (the example is built with `--release`, where `val + 1`
wraps).
-/

set_option autoImplicit false

namespace Stopwatch

/-- Rust `enum StopwatchState { Ready, Running, Stopped }`. -/
inductive StopwatchState where
  | Ready
  | Running
  | Stopped
  deriving DecidableEq

/-- The `u32` modulus, `2 ^ 32`. -/
def U32MOD : Nat := 4294967296

/-- The process-wide shared state of the example.

* `STATE`        — `static STATE: Mutex<Cell<StopwatchState>>`;
* `ELAPSED_MS`   — `static ELAPSED_MS: Mutex<Cell<u32>>` (invariant: `< 2^32`);
* `nvic_tim2_masked` — whether the TIM2 interrupt source is masked at the
  NVIC (`stm32::NVIC::mask/unmask`); the TIM2 handler only runs while this
  is `false`;
* `exti0_pending` / `tim2_pending` — the hardware pending flags the handlers
  acknowledge;
* `BUTTON` / `TIMER_TIM2` — whether the corresponding `Option` slot holds the
  moved-in hardware handle (`true` after initialization). -/
structure Sys where
  STATE : StopwatchState
  ELAPSED_MS : Nat
  nvic_tim2_masked : Bool
  exti0_pending : Bool
  tim2_pending : Bool
  BUTTON : Bool
  TIMER_TIM2 : Bool
  deriving DecidableEq

/-- Rust `fn stopwatch_start(cs)`: reset `ELAPSED_MS` to 0, then
`NVIC::unmask(Interrupt::TIM2)`. -/
def stopwatch_start (s : Sys) : Sys :=
  { s with ELAPSED_MS := 0, nvic_tim2_masked := false }

/-- Rust `fn stopwatch_stop(_cs)`: `NVIC::mask(Interrupt::TIM2)`. -/
def stopwatch_stop (s : Sys) : Sys :=
  { s with nvic_tim2_masked := true }

/-- The `EXTI0` button interrupt handler.  Its whole body runs inside one
`free(|cs| ...)` critical section: if the `BUTTON` slot is filled, clear the
pending edge bit, then dispatch on the current state. -/
def EXTI0 (s : Sys) : Sys :=
  if s.BUTTON then
    let s1 := { s with exti0_pending := false }
    match s1.STATE with
    | .Ready => { stopwatch_start s1 with STATE := .Running }
    | .Running => { stopwatch_stop s1 with STATE := .Stopped }
    | .Stopped => s1
  else s

/-- The `TIM2` timer interrupt handler.  Inside one critical section: if the
`TIMER_TIM2` slot is filled, clear the timeout flag; then, unconditionally
(outside the `if let`, with no guard on `STATE`), read `ELAPSED_MS` and write
back `val + 1` (`u32` wrapping). -/
def TIM2 (s : Sys) : Sys :=
  let s1 := if s.TIMER_TIM2 then { s with tim2_pending := false } else s
  { s1 with ELAPSED_MS := (s1.ELAPSED_MS + 1) % U32MOD }

/-- Interrupt events after initialization: a falling edge on the user button
(the EXTI0 line is unmasked at startup and stays unmasked), and a TIM2
timeout firing. -/
inductive Ev where
  | press
  | timerFire
  deriving DecidableEq

/-- One hardware event.  A TIM2 timeout invokes the handler only while the
TIM2 source is unmasked at the NVIC; while masked the firing is not
delivered and the state is unchanged. -/
def step (s : Sys) : Ev → Sys
  | .press => EXTI0 s
  | .timerFire => if s.nvic_tim2_masked then s else TIM2 s

/-- Run a sequence of hardware events. -/
def run (s : Sys) (evs : List Ev) : Sys := evs.foldl step s

/-- All intermediate states along a run (including the start and end states).
Every element is a snapshot that held at a single instant, i.e. whose
`(STATE, ELAPSED_MS)` pair was written atomically by the handler invocations
so far. -/
def hist (s : Sys) : List Ev → List Sys
  | [] => [s]
  | e :: evs => s :: hist (step s e) evs

/-- The state after startup, just before the main loop: `STATE = Ready`,
`ELAPSED_MS = 0`, both resource slots filled, TIM2 still masked at the NVIC
(only EXTI0 is unmasked at startup), no pending flags. -/
def init : Sys :=
  { STATE := .Ready
    ELAPSED_MS := 0
    nvic_tim2_masked := true
    exti0_pending := false
    tim2_pending := false
    BUTTON := true
    TIMER_TIM2 := true }

/-- A concrete running state with a nonzero counter, used as a witness
input. -/
def runningState : Sys :=
  { init with
    STATE := .Running
    ELAPSED_MS := 41
    nvic_tim2_masked := false }

/-- A concrete stopped state with a pending button edge, used as a witness
input. -/
def stoppedState : Sys :=
  { init with
    STATE := .Stopped
    ELAPSED_MS := 500
    exti0_pending := true }

/-- The state just after a fresh start: running with the counter at 0. -/
def startedState : Sys :=
  { init with
    STATE := .Running
    nvic_tim2_masked := false }

/-- A running state whose counter has reached `u32::MAX`. -/
def wrapState : Sys :=
  { init with
    STATE := .Running
    ELAPSED_MS := 4294967295
    nvic_tim2_masked := false }

/-! ## Formatting (`format_elapsed` and its helpers)

Rust's `{}` display of a `u32` renders the decimal digits, most significant
first, and `{:02}` / `{:03}` zero-pad on the left to the given minimum
width.  `decDigits` and `padDigits` embed exactly that. -/

/-- The ASCII character of one decimal digit. -/
def digitChar (n : Nat) : Char := Char.ofNat (48 + n)

/-- Decimal rendering of a `u32` by Rust's `Display`: digits most
significant first, with `0` rendered as `"0"`. -/
def decDigits (n : Nat) : List Char :=
  if _h : n < 10 then [digitChar n]
  else decDigits (n / 10) ++ [digitChar (n % 10)]
termination_by n
decreasing_by exact Nat.div_lt_self (by omega) (by omega)

/-- Rust's `{:0w}` format: left-pad the decimal rendering with zeros to a
minimum width of `w`. -/
def padDigits (w n : Nat) : List Char :=
  List.replicate (w - (decDigits n).length) '0' ++ decDigits n

/-- Rust `fn elapsed_to_ms(elapsed: u32) -> u32 { elapsed % 1000 }`. -/
def elapsed_to_ms (elapsed : Nat) : Nat := elapsed % 1000

/-- Rust `fn elapsed_to_s`: `(elapsed - elapsed_to_ms(elapsed)) % 60000 / 1000`
(the subtraction cannot underflow since `elapsed % 1000 ≤ elapsed`). -/
def elapsed_to_s (elapsed : Nat) : Nat :=
  (elapsed - elapsed_to_ms elapsed) % 60000 / 1000

/-- Rust `fn elapsed_to_m(elapsed: u32) -> u32 { elapsed / 60000 }`. -/
def elapsed_to_m (elapsed : Nat) : Nat := elapsed / 60000

/-- The character sequence produced by
`format_args!("{}:{:02}.{:03}", minutes, seconds, millis)` in
`format_elapsed`. -/
def format_chars (elapsed : Nat) : List Char :=
  decDigits (elapsed_to_m elapsed) ++
    ':' :: (padDigits 2 (elapsed_to_s elapsed) ++
      '.' :: padDigits 3 (elapsed_to_ms elapsed))

/-- Rust `fn format_elapsed`, as the text it renders. -/
def format_elapsed (elapsed : Nat) : String := String.mk (format_chars elapsed)

/-- The formatting formula exactly as claim C5 words it: `ms_part = elapsed
mod 1000`, `s_part = ((elapsed − ms_part) mod 60000) / 1000` zero-padded to
2 digits, `m_part = elapsed / 60000` unpadded, glued as
`m_part:s_part.ms_part`. -/
def format_elapsed_spec (elapsed : Nat) : String :=
  String.mk (decDigits (elapsed / 60000) ++
    ':' :: (padDigits 2 ((elapsed - elapsed % 1000) % 60000 / 1000) ++
      '.' :: padDigits 3 (elapsed % 1000)))

/-- Rust `fmt::write(buf, ...)` where `buf : ArrayString<[u8; 10]>`: the
write succeeds and fills the buffer iff the rendered text fits in the
10-byte capacity (every rendered character is ASCII, so byte length equals
character count).  `format_elapsed` then calls `.unwrap()` on this result,
which panics on the `none` case. -/
def format_elapsed_write (elapsed : Nat) : Option String :=
  if (format_chars elapsed).length ≤ 10 then some (String.mk (format_chars elapsed))
  else none

/-! ## The main loop's flush step -/

/-- The display driver's error type.  It is external to this crate
(`ssd1331`); one opaque representative suffices. -/
inductive DisplayError where
  | comm

/-- Outcome of one main-loop frame at the flush step. -/
inductive MainStep where
  | nextIteration
  | halted

/-- The main loop's `disp.flush().unwrap()`: on `Ok` the loop proceeds to
the next iteration; on `Err` the `unwrap` raises the panic handler and the
process halts. -/
def flush_unwrap : Except DisplayError Unit → MainStep
  | .ok _ => .nextIteration
  | .error _ => .halted

/-! ## Helper lemmas -/

theorem run_cons (s : Sys) (e : Ev) (evs : List Ev) :
    run s (e :: evs) = run (step s e) evs := rfl

theorem EXTI0_ELAPSED (s : Sys) :
    (EXTI0 s).ELAPSED_MS = 0 ∨ (EXTI0 s).ELAPSED_MS = s.ELAPSED_MS := by
  by_cases hb : s.BUTTON
  · cases hs : s.STATE <;> simp [EXTI0, hb, hs, stopwatch_start, stopwatch_stop]
  · simp [EXTI0, hb]

theorem TIM2_ELAPSED (s : Sys) :
    (TIM2 s).ELAPSED_MS = (s.ELAPSED_MS + 1) % U32MOD := by
  by_cases h : s.TIMER_TIM2 <;> simp [TIM2, h]

theorem TIM2_masked_eq (s : Sys) :
    (TIM2 s).nvic_tim2_masked = s.nvic_tim2_masked := by
  by_cases h : s.TIMER_TIM2 <;> simp [TIM2, h]

theorem run_timerFire_unmasked (s : Sys) (N : Nat)
    (hu : s.nvic_tim2_masked = false) (hlt : s.ELAPSED_MS < U32MOD) :
    (run s (List.replicate N .timerFire)).ELAPSED_MS = (s.ELAPSED_MS + N) % U32MOD := by
  induction N generalizing s with
  | zero =>
    simp [run, Nat.mod_eq_of_lt hlt]
  | succ N ih =>
    rw [List.replicate_succ, run_cons]
    have hstep : step s .timerFire = TIM2 s := by simp [step, hu]
    rw [hstep]
    have h1 := ih (TIM2 s) (by rw [TIM2_masked_eq]; exact hu)
      (by rw [TIM2_ELAPSED]; exact Nat.mod_lt _ (by simp [U32MOD]))
    rw [h1, TIM2_ELAPSED, Nat.mod_add_mod]
    have : s.ELAPSED_MS + 1 + N = s.ELAPSED_MS + (N + 1) := by omega
    rw [this]

theorem run_timerFire_masked (s : Sys) (N : Nat)
    (hm : s.nvic_tim2_masked = true) :
    run s (List.replicate N .timerFire) = s := by
  induction N with
  | zero => simp [run]
  | succ N ih =>
    rw [List.replicate_succ, run_cons]
    have hstep : step s .timerFire = s := by simp [step, hm]
    rw [hstep]
    exact ih

theorem run_mem_hist (evs : List Ev) : ∀ s : Sys, run s evs ∈ hist s evs := by
  induction evs with
  | nil => intro s; simp [run, hist]
  | cons e evs ih =>
    intro s
    rw [run_cons, hist]
    exact List.mem_cons_of_mem _ (ih (step s e))

theorem decDigits_lt {n : Nat} (h : n < 10) : decDigits n = [digitChar n] := by
  rw [decDigits]; simp [h]

theorem decDigits_ge {n : Nat} (h : 10 ≤ n) :
    decDigits n = decDigits (n / 10) ++ [digitChar (n % 10)] := by
  conv_lhs => rw [decDigits]
  simp [Nat.not_lt.mpr h]

theorem decDigits_len_pos (n : Nat) : 1 ≤ (decDigits n).length := by
  by_cases h : n < 10
  · simp [decDigits_lt h]
  · simp [decDigits_ge (Nat.not_lt.mp h)]

theorem decDigits_len_step {n : Nat} (h : 10 ≤ n) :
    (decDigits n).length = (decDigits (n / 10)).length + 1 := by
  simp [decDigits_ge h]

theorem decDigits_len_le_of_lt_pow {n k : Nat} (hk : 1 ≤ k) (h : n < 10 ^ k) :
    (decDigits n).length ≤ k := by
  induction k generalizing n with
  | zero => omega
  | succ k ih =>
    by_cases hn : n < 10
    · simp [decDigits_lt hn]
    · have h10 : 10 ≤ n := Nat.not_lt.mp hn
      rw [decDigits_len_step h10]
      have hk1 : 1 ≤ k := by
        by_contra hk0
        have hz : k = 0 := by omega
        subst hz
        simp [pow_succ] at h
        omega
      have hlt : n / 10 < 10 ^ k := by
        rw [Nat.div_lt_iff_lt_mul (by omega)]
        calc n < 10 ^ (k + 1) := h
        _ = 10 ^ k * 10 := by ring
      exact Nat.succ_le_succ (ih hk1 hlt)

theorem decDigits_len_ge_4 {n : Nat} (h : 1000 ≤ n) : 4 ≤ (decDigits n).length := by
  have h1 : (decDigits n).length = (decDigits (n / 10)).length + 1 :=
    decDigits_len_step (by omega)
  have h2 : (decDigits (n / 10)).length = (decDigits (n / 10 / 10)).length + 1 :=
    decDigits_len_step (by omega)
  have h3 : (decDigits (n / 10 / 10)).length = (decDigits (n / 10 / 10 / 10)).length + 1 :=
    decDigits_len_step (by omega)
  have h4 := decDigits_len_pos (n / 10 / 10 / 10)
  omega

theorem padDigits_length (w n : Nat) :
    (padDigits w n).length = (w - (decDigits n).length) + (decDigits n).length := by
  simp [padDigits]

theorem format_chars_length (elapsed : Nat) :
    (format_chars elapsed).length = (decDigits (elapsed_to_m elapsed)).length + 7 := by
  have hs : elapsed_to_s elapsed < 100 := by
    unfold elapsed_to_s elapsed_to_ms
    omega
  have hms : elapsed_to_ms elapsed < 1000 := by
    unfold elapsed_to_ms
    omega
  have hls : (decDigits (elapsed_to_s elapsed)).length ≤ 2 :=
    decDigits_len_le_of_lt_pow (by omega) (by simpa using hs)
  have hlms : (decDigits (elapsed_to_ms elapsed)).length ≤ 3 :=
    decDigits_len_le_of_lt_pow (by omega) (by simpa using hms)
  simp [format_chars, padDigits_length]
  omega

/-! ## The claims -/

/-- C1: while `STATE = Ready` (with the button resource installed), one
invocation of the button interrupt handler — a single critical section —
resets `ELAPSED_MS` to 0, unmasks the TIM2 interrupt source at the NVIC,
and writes `STATE = Running`. -/
theorem C1_ready_to_running (s : Sys) (hb : s.BUTTON = true)
    (hs : s.STATE = .Ready) :
    (EXTI0 s).ELAPSED_MS = 0 ∧ (EXTI0 s).nvic_tim2_masked = false ∧
      (EXTI0 s).STATE = .Running := by
  simp [EXTI0, hb, hs, stopwatch_start]

/-- Witness for C1 at the post-initialization state. -/
theorem C1_witness :
    (EXTI0 init).ELAPSED_MS = 0 ∧ (EXTI0 init).nvic_tim2_masked = false ∧
      (EXTI0 init).STATE = .Running :=
  C1_ready_to_running init rfl rfl

/-- C2: while `STATE = Running`, one invocation of the button interrupt
handler masks the TIM2 interrupt source, writes `STATE = Stopped`, and
leaves `ELAPSED_MS` unchanged. -/
theorem C2_running_to_stopped (s : Sys) (hb : s.BUTTON = true)
    (hs : s.STATE = .Running) :
    (EXTI0 s).nvic_tim2_masked = true ∧ (EXTI0 s).STATE = .Stopped ∧
      (EXTI0 s).ELAPSED_MS = s.ELAPSED_MS := by
  simp [EXTI0, hb, hs, stopwatch_stop]

/-- Witness for C2 at a concrete running state with counter 41. -/
theorem C2_witness :
    (EXTI0 runningState).nvic_tim2_masked = true ∧
      (EXTI0 runningState).STATE = .Stopped ∧
      (EXTI0 runningState).ELAPSED_MS = runningState.ELAPSED_MS :=
  C2_running_to_stopped runningState rfl rfl

/-- C3: while `STATE = Stopped`, one invocation of the button interrupt
handler still clears the pending edge bit but leaves `STATE`, `ELAPSED_MS`
and the TIM2 mask unchanged. -/
theorem C3_stopped_noop (s : Sys) (hb : s.BUTTON = true)
    (hs : s.STATE = .Stopped) :
    (EXTI0 s).exti0_pending = false ∧ (EXTI0 s).STATE = s.STATE ∧
      (EXTI0 s).ELAPSED_MS = s.ELAPSED_MS ∧
      (EXTI0 s).nvic_tim2_masked = s.nvic_tim2_masked := by
  simp [EXTI0, hb, hs]

/-- Witness for C3 at a concrete stopped state. -/
theorem C3_witness :
    (EXTI0 stoppedState).exti0_pending = false ∧
      (EXTI0 stoppedState).STATE = stoppedState.STATE ∧
      (EXTI0 stoppedState).ELAPSED_MS = stoppedState.ELAPSED_MS ∧
      (EXTI0 stoppedState).nvic_tim2_masked = stoppedState.nvic_tim2_masked :=
  C3_stopped_noop stoppedState rfl rfl

/-- C4 counterexample: with the counter at `u32::MAX = 4294967295` and the
TIM2 source unmasked, one timer firing does NOT leave the counter at the
value-at-unmask plus 1 — `u32` addition wraps to 0. -/
theorem C4_counterexample :
    (run wrapState [.timerFire]).ELAPSED_MS ≠ wrapState.ELAPSED_MS + 1 := by
  decide

/-- C4 (amended): each TIM2 handler invocation advances `ELAPSED_MS` by
exactly 1 modulo `2^32` with no software guard on `STATE`; after `N` timer
firings while the source is unmasked the counter equals (value at unmask
+ N) mod `2^32` — in particular exactly value + N whenever that sum stays
below `2^32` — and firings while the source is masked add 0. -/
theorem C4_timer_accrual (s : Sys) (N : Nat) (hlt : s.ELAPSED_MS < U32MOD) :
    ((TIM2 s).ELAPSED_MS = (s.ELAPSED_MS + 1) % U32MOD) ∧
    (s.nvic_tim2_masked = false →
      (run s (List.replicate N .timerFire)).ELAPSED_MS = (s.ELAPSED_MS + N) % U32MOD) ∧
    (s.nvic_tim2_masked = true →
      (run s (List.replicate N .timerFire)).ELAPSED_MS = s.ELAPSED_MS) := by
  refine ⟨TIM2_ELAPSED s, ?_, ?_⟩
  · intro hu
    exact run_timerFire_unmasked s N hu hlt
  · intro hm
    rw [run_timerFire_masked s N hm]

/-- Witness for C4 (amended): from a freshly started stopwatch, 3 unmasked
firings yield counter 3, and 3 masked firings leave 0 unchanged. -/
theorem C4_witness :
    (run startedState (List.replicate 3 .timerFire)).ELAPSED_MS =
        (startedState.ELAPSED_MS + 3) % U32MOD ∧
      (run init (List.replicate 3 .timerFire)).ELAPSED_MS = init.ELAPSED_MS :=
  ⟨(C4_timer_accrual startedState 3 (by decide)).2.1 rfl,
   (C4_timer_accrual init 3 (by decide)).2.2 rfl⟩

/-- C5: `format_elapsed` renders exactly the claim's formula
(`m_part:s_part.ms_part` with `ms_part = elapsed mod 1000` padded to 3,
`s_part = ((elapsed − ms_part) mod 60000) / 1000` padded to 2, `m_part =
elapsed / 60000` unpadded), and the five quoted example values hold. -/
theorem C5_format_elapsed :
    (∀ elapsed : Nat, elapsed < U32MOD →
      format_elapsed elapsed = format_elapsed_spec elapsed) ∧
    format_elapsed 0 = "0:00.000" ∧
    format_elapsed 1 = "0:00.001" ∧
    format_elapsed 1000 = "0:01.000" ∧
    format_elapsed 61234 = "1:01.234" ∧
    format_elapsed 3600000 = "60:00.000" := by
  refine ⟨fun elapsed _ => rfl, ?_, ?_, ?_, ?_, ?_⟩ <;>
    simp [format_elapsed, format_chars, padDigits, elapsed_to_m, elapsed_to_s,
      elapsed_to_ms, decDigits_ge, decDigits_lt, digitChar]

/-- Witness for C5 at `elapsed = 61234`. -/
theorem C5_witness : format_elapsed 61234 = format_elapsed_spec 61234 :=
  C5_format_elapsed.1 61234 (by decide)

/-- C6 counterexample: the TIM2 handler itself (not the button handler's
reset) writes the counter downward: at `ELAPSED_MS = 4294967295` an
unmasked timer firing drops it to 0. -/
theorem C6_counterexample :
    (TIM2 wrapState).ELAPSED_MS < wrapState.ELAPSED_MS := by
  decide

/-- C6 (amended): across every handler invocation the counter never
decreases except on the explicit reset to zero in the button handler
(`stopwatch_start` on the `Ready → Running` edge) or on `u32` wraparound
from `2^32 − 1` to 0 in the timer handler. -/
theorem C6_monotone_except_reset_or_wrap (s : Sys) (e : Ev)
    (hlt : s.ELAPSED_MS < U32MOD)
    (hdec : (step s e).ELAPSED_MS < s.ELAPSED_MS) :
    (step s e).ELAPSED_MS = 0 ∧
      (e = .press ∨ s.ELAPSED_MS = U32MOD - 1) := by
  cases e with
  | press =>
    have hstep : step s .press = EXTI0 s := rfl
    rw [hstep] at hdec ⊢
    rcases EXTI0_ELAPSED s with h | h
    · exact ⟨h, Or.inl rfl⟩
    · rw [h] at hdec
      exact absurd hdec (lt_irrefl _)
  | timerFire =>
    by_cases hm : s.nvic_tim2_masked
    · have hstep : step s .timerFire = s := by simp [step, hm]
      rw [hstep] at hdec
      exact absurd hdec (lt_irrefl _)
    · have he : (step s .timerFire).ELAPSED_MS = (s.ELAPSED_MS + 1) % U32MOD := by
        simp only [step, hm, Bool.false_eq_true, if_false, TIM2_ELAPSED]
      rw [he] at hdec ⊢
      rcases Nat.lt_or_ge (s.ELAPSED_MS + 1) U32MOD with hc | hc
      · rw [Nat.mod_eq_of_lt hc] at hdec
        omega
      · have hq : s.ELAPSED_MS + 1 = U32MOD := by omega
        rw [hq, Nat.mod_self]
        exact ⟨rfl, Or.inr (by omega)⟩

/-- Witness for C6 (amended) at the wraparound state. -/
theorem C6_witness :
    (step wrapState .timerFire).ELAPSED_MS = 0 ∧
      (Ev.timerFire = Ev.press ∨ wrapState.ELAPSED_MS = U32MOD - 1) :=
  C6_monotone_except_reset_or_wrap wrapState .timerFire (by decide) (by decide)

/-- C7 counterexample: when the flush step returns a `DisplayError`, the
main loop does NOT proceed to the next iteration — `disp.flush().unwrap()`
raises the panic handler. -/
theorem C7_counterexample :
    flush_unwrap (.error DisplayError.comm) ≠ MainStep.nextIteration := by
  intro h
  exact MainStep.noConfusion h

/-- C7 (amended): when the display flush step returns a `DisplayError`, the
main loop unwraps the result and panics, halting the process; the frame is
not skipped and there is no retry on the next iteration. -/
theorem C7_flush_error_halts (e : DisplayError) :
    flush_unwrap (.error e) = MainStep.halted := rfl

/-- C8 counterexample: the main loop reads `ELAPSED_MS` and `STATE` in two
separate critical sections.  Along the concrete run
press, fire, fire, (main reads counter = 2), fire, press,
(main reads state = Stopped), the loop observes the pair (Stopped, 2) —
but no state of the whole history ever held that pair, so the observation
is torn. -/
theorem C8_counterexample :
    ((hist init [.press, .timerFire, .timerFire, .timerFire, .press]).map
        (fun t => (t.STATE, t.ELAPSED_MS)) =
      [(.Ready, 0), (.Running, 0), (.Running, 1), (.Running, 2),
        (.Running, 3), (.Stopped, 3)]) ∧
    ((hist init [.press, .timerFire, .timerFire, .timerFire, .press]).get? 3).map
        Sys.ELAPSED_MS = some 2 ∧
    ((hist init [.press, .timerFire, .timerFire, .timerFire, .press]).get? 5).map
        Sys.STATE = some .Stopped ∧
    ¬ ((StopwatchState.Stopped, 2) ∈
        (hist init [.press, .timerFire, .timerFire, .timerFire, .press]).map
          (fun t => (t.STATE, t.ELAPSED_MS))) := by
  decide

/-- C8 (amended): a `(STATE, ELAPSED_MS)` pair read together inside a
single critical section always equals a snapshot that held at one instant,
written atomically by the same or a prior handler invocation; the torn
observation arises only because the main loop reads the counter and the
state in two different critical sections. -/
theorem C8_single_cs_read_untorn (s : Sys) (evs : List Ev) :
    ((run s evs).STATE, (run s evs).ELAPSED_MS) ∈
      (hist s evs).map (fun t => (t.STATE, t.ELAPSED_MS)) :=
  List.mem_map_of_mem _ (run_mem_hist evs s)

/-- C9: `format_elapsed` writes through a 10-byte `ArrayString` and unwraps
the result: for every `u32` elapsed below 60000000 (minutes ≤ 999, at most
10 bytes) the buffer write succeeds, and for every `u32` elapsed of
60000000 or more (minutes ≥ 1000, at least 11 bytes) it fails, so the
`unwrap` panics. -/
theorem C9_buffer_capacity (elapsed : Nat) (_hu : elapsed < U32MOD) :
    (elapsed < 60000000 → (format_elapsed_write elapsed).isSome = true) ∧
    (60000000 ≤ elapsed → format_elapsed_write elapsed = none) := by
  constructor
  · intro h
    have hm : elapsed_to_m elapsed < 1000 := by
      unfold elapsed_to_m
      omega
    have hlen : (decDigits (elapsed_to_m elapsed)).length ≤ 3 :=
      decDigits_len_le_of_lt_pow (by omega) (by simpa using hm)
    have hfit : (format_chars elapsed).length ≤ 10 := by
      rw [format_chars_length]
      omega
    simp [format_elapsed_write, hfit]
  · intro h
    have hm : 1000 ≤ elapsed_to_m elapsed := by
      unfold elapsed_to_m
      omega
    have hlen := decDigits_len_ge_4 hm
    have hbig : ¬ (format_chars elapsed).length ≤ 10 := by
      rw [format_chars_length]
      omega
    simp [format_elapsed_write, hbig]

/-- Witness for C9 at the boundary: 59999999 ms still fits, 60000000 ms
overflows the buffer. -/
theorem C9_witness :
    (format_elapsed_write 59999999).isSome = true ∧
      format_elapsed_write 60000000 = none :=
  ⟨(C9_buffer_capacity 59999999 (by decide)).1 (by decide),
   (C9_buffer_capacity 60000000 (by decide)).2 (by decide)⟩

/-- C10: the timer handler's increment is plain `u32` addition modulo
`2^32`: when the counter holds 4294967295, the next unmasked timer firing
takes it to 0, breaking monotonic growth. -/
theorem C10_u32_wraparound (s : Sys) (hm : s.nvic_tim2_masked = false)
    (he : s.ELAPSED_MS = 4294967295) :
    (step s .timerFire).ELAPSED_MS = 0 ∧
      (step s .timerFire).ELAPSED_MS < s.ELAPSED_MS ∧
      (∀ t : Sys, (TIM2 t).ELAPSED_MS = (t.ELAPSED_MS + 1) % U32MOD) := by
  have h : (step s .timerFire).ELAPSED_MS = (s.ELAPSED_MS + 1) % U32MOD := by
    simp [step, hm, TIM2_ELAPSED]
  rw [h, he]
  refine ⟨by norm_num [U32MOD], by norm_num [U32MOD], TIM2_ELAPSED⟩

/-- Witness for C10 at the concrete wraparound state. -/
theorem C10_witness :
    (step wrapState .timerFire).ELAPSED_MS = 0 :=
  (C10_u32_wraparound wrapState rfl rfl).1

end Stopwatch
